import Mathlib

/-!
Verification of the NLPC attendance application against its specification.

The JavaScript handlers and their SQL statements are shallowly embedded as
pure Lean functions over explicit table states (lists of rows).  Conventions:

* SQL `DATE`/`TIMESTAMP` values are modelled as ISO date strings (compared
  lexicographically, which agrees with chronological order for ISO dates)
  and as natural numbers, respectively.
* JavaScript integer arithmetic is modelled on naturals; the one
  floating-point computation the claims reach — the attendance-rate
  `Math.round((att / occ) * 100)` — is modelled exactly as IEEE-754 binary64
  round-to-nearest-even arithmetic over dyadic rationals.
* Database/network failures are injected through explicit fault flags, and
  random sources (crypto.randomInt, crypto.randomBytes) are passed in as
  explicit draw functions.
* String primitives used by the handlers (toUpperCase, trim, split,
  replace(/\D/g,''), slice(-10)) are re-implemented over character lists so
  that all definitions are kernel-computable.
-/

/-- Lexicographic comparison of characters by code point. -/
def chLe (a b : Char) : Bool := a.toNat ≤ b.toNat

/-- Lexicographic comparison of character lists. -/
def lexLe : List Char → List Char → Bool
  | [], _ => true
  | _ :: _, [] => false
  | a :: as, b :: bs => if a = b then lexLe as bs else chLe a b

/-- Date comparison: ISO date strings ordered lexicographically, which is the
chronological order used by SQL `date >= $1 AND date <= $2` conditions. -/
def dle (a b : String) : Bool := lexLe a.data b.data

/-- Model of JavaScript `date.split('T')[0]`: the characters before the first
`T`, used by the attendance recorder to normalize dates to `YYYY-MM-DD`. -/
def normalizeDate (d : String) : String := ⟨d.data.takeWhile (fun c => c ≠ 'T')⟩

/-- Model of JavaScript `String.prototype.toUpperCase` (ASCII). -/
def upStr (s : String) : String := ⟨s.data.map Char.toUpper⟩

/-- Model of JavaScript `String.prototype.trim`. -/
def trimStr (s : String) : String :=
  ⟨((s.data.dropWhile Char.isWhitespace).reverse.dropWhile Char.isWhitespace).reverse⟩

/-- Model of `phone.replace(/\D/g, '')` and of SQL
`REGEXP_REPLACE(phone, '[^0-9]', '', 'g')`: keep only digits. -/
def digitsOf (s : String) : String := ⟨s.data.filter (fun c => c.isDigit)⟩

/-- Model of JavaScript `s.slice(-10)` and of SQL `RIGHT(s, 10)`:
the last (at most) ten characters. -/
def lastTen (s : String) : String := ⟨(s.data.reverse.take 10).reverse⟩

/-! ## Attendance recording (`record-attendance` handler)

The `attendance` table has a `UNIQUE(date, service_type, member_id)`
constraint.  The handler runs, inside one transaction, a `DELETE` of all rows
for the `(date, service_type)` pair followed by a bulk
`INSERT ... ON CONFLICT (date, service_type, member_id) DO UPDATE` of one row
per attendee with `present = TRUE`. -/

/-- One row of the `attendance` table. -/
structure AttRow where
  date : String
  service_type : String
  member_id : String
  present : Bool
  checked_in_at : Nat
deriving DecidableEq

/-- Key predicate of the `UNIQUE(date, service_type, member_id)` constraint. -/
def attKey (d s i : String) (r : AttRow) : Bool :=
  r.date == d && r.service_type == s && r.member_id == i

/-- Predicate for `WHERE date = $1 AND service_type = $2`. -/
def pairKey (d s : String) (r : AttRow) : Bool :=
  r.date == d && r.service_type == s

/-- The rows a reader sees for one `(date, service_type)` pair. -/
def pairRows (tbl : List AttRow) (d s : String) : List AttRow :=
  tbl.filter (pairKey d s)

/-- The row inserted for one attendee by the bulk insert:
`($date, $serviceType, $id, TRUE, CURRENT_TIMESTAMP)`. -/
def mkAttRow (d s i : String) (now : Nat) : AttRow :=
  { date := d, service_type := s, member_id := i, present := true, checked_in_at := now }

/-- Effect of one `VALUES` tuple of the bulk insert: insert the row, or — the
`ON CONFLICT ... DO UPDATE` fallback — set `present = TRUE` and refresh
`checked_in_at` on an existing row with the same unique key. -/
def upsertOne (tbl : List AttRow) (d s i : String) (now : Nat) : List AttRow :=
  if tbl.any (attKey d s i) then
    tbl.map (fun r => if attKey d s i r then { r with present := true, checked_in_at := now } else r)
  else
    tbl ++ [mkAttRow d s i now]

/-- The bulk `INSERT ... ON CONFLICT DO UPDATE` statement.  PostgreSQL raises
an error when two `VALUES` tuples of the same statement affect the same unique
key; with the key fixed to `(d, s, ·)` that happens exactly when `ids` has a
duplicate. -/
def insertAttendance (tbl : List AttRow) (d s : String) (ids : List String) (now : Nat) :
    Except String (List AttRow) :=
  if ids.Nodup then
    .ok (ids.foldl (fun acc i => upsertOne acc d s i now) tbl)
  else
    .error "ON CONFLICT DO UPDATE command cannot affect row a second time"

/-- Fault-injection flags: which SQL statement of the transaction raises. -/
structure SqlFaults where
  failBegin : Bool
  failDel : Bool
  failIns : Bool
  failCommit : Bool
deriving DecidableEq

/-- A fault-free database run. -/
def noFaults : SqlFaults := ⟨false, false, false, false⟩

/-- Outcome of the `record-attendance` handler: HTTP status, the attendance
table after the request, and the reported insert/delete counts. -/
structure RecordOut where
  status : Nat
  table : List AttRow
  count : Nat
  deletedPrevious : Nat
deriving DecidableEq

/-- The `record-attendance` handler: validate, normalize the date, then in one
transaction delete every row of the `(date, serviceType)` pair and bulk-insert
one `present = TRUE` row per attendee.  Any SQL error rolls the transaction
back, leaving the table as it was, and yields a 500 response. -/
def recordAttendance (tbl : List AttRow) (date serviceType : String)
    (attendeeIds : List String) (now : Nat) (f : SqlFaults) : RecordOut :=
  if date == "" || serviceType == "" then
    ⟨400, tbl, 0, 0⟩
  else
    let nd := normalizeDate date
    if f.failBegin then ⟨500, tbl, 0, 0⟩
    else if f.failDel then ⟨500, tbl, 0, 0⟩
    else
      let deletedCount := (tbl.filter (pairKey nd serviceType)).length
      let kept := tbl.filter (fun r => !(pairKey nd serviceType r))
      if attendeeIds.isEmpty then
        if f.failCommit then ⟨500, tbl, 0, 0⟩
        else ⟨200, kept, 0, deletedCount⟩
      else if f.failIns then ⟨500, tbl, 0, 0⟩
      else
        match insertAttendance kept nd serviceType attendeeIds now with
        | .error _ => ⟨500, tbl, 0, 0⟩
        | .ok tbl' =>
          if f.failCommit then ⟨500, tbl, 0, 0⟩
          else ⟨200, tbl', attendeeIds.length, deletedCount⟩

/-! ## Member absence report (`member-absence-report` handler)

Step 1 collects the distinct `(date, service_type)` pairs that have any
attendance row in the requested range; step 2 collects the pairs where the
member has a `present = true` row; step 3 takes the set difference; the
summary derives `totalAttended` by subtraction and the attendance rate by
`Math.round((totalAttended / totalServicesInPeriod) * 100)`. -/

/-- A service occurrence: one `(date, service_type)` pair. -/
structure SvcPair where
  date : String
  service_type : String
deriving DecidableEq

/-- The occurrence key of an attendance row. -/
def toPair (r : AttRow) : SvcPair := ⟨r.date, r.service_type⟩

/-- The SQL range condition `date >= $from AND date <= $to`. -/
def inRange (lo hi d : String) : Bool := dle lo d && dle d hi

/-- Model of `SELECT DISTINCT date, service_type FROM attendance WHERE date
>= $1 AND date <= $2`: the services that occurred in the range. -/
def occurredServices (tbl : List AttRow) (lo hi : String) : List SvcPair :=
  ((tbl.filter (fun r => inRange lo hi r.date)).map toPair).dedup

/-- Membership in the handler's `attendedSet`: the member has an attendance
row with `present = true` in the range whose occurrence key is `p`. -/
def memberAttended (tbl : List AttRow) (m lo hi : String) (p : SvcPair) : Bool :=
  tbl.any (fun r => r.member_id == m && inRange lo hi r.date && r.present && toPair r == p)

/-- Step 3 of the report: occurred services the member did not attend. -/
def memberAbsences (tbl : List AttRow) (m lo hi : String) : List SvcPair :=
  (occurredServices tbl lo hi).filter (fun p => !(memberAttended tbl m lo hi p))

/-- Summary field `totalServicesInPeriod`. -/
def totalServices (tbl : List AttRow) (lo hi : String) : Nat :=
  (occurredServices tbl lo hi).length

/-- Summary field `totalAbsences`. -/
def totalAbsences (tbl : List AttRow) (m lo hi : String) : Nat :=
  (memberAbsences tbl m lo hi).length

/-- Summary field `totalAttended`, computed by the handler as
`totalServicesInPeriod - totalAbsences`. -/
def totalAttended (tbl : List AttRow) (m lo hi : String) : Nat :=
  totalServices tbl lo hi - totalAbsences tbl m lo hi

/-- Round-to-nearest, ties-to-even, of the quotient `a / b` (`b` positive):
the mantissa-rounding step of IEEE-754 binary64 arithmetic. -/
def roundEvenDiv (a b : Nat) : Nat :=
  let q := a / b
  let r := a % b
  if 2 * r < b then q
  else if b < 2 * r then q + 1
  else if q % 2 = 0 then q else q + 1

/-- Least `f` (within the fuel bound) with `target ≤ a * 2 ^ f`. -/
def upScale (a target : Nat) : Nat → Nat
  | 0 => 0
  | fuel + 1 => if target ≤ a then 0 else upScale (2 * a) target fuel + 1

/-- IEEE-754 binary64 round-to-nearest-even of the ratio `a / b` (`b`
positive, ratio in the positive normal range below `2 ^ 52`), as a dyadic
pair `(m, s)` of value `m / 2 ^ s`: the scale `s` anchors the rounded
mantissa in `[2 ^ 52, 2 ^ 53]`. -/
def fl53 (a b : Nat) : Nat × Nat :=
  if a = 0 then (0, 0)
  else
    let f := upScale a (b * 2 ^ 52) (b + 60)
    (roundEvenDiv (a * 2 ^ f) b, f)

/-- IEEE-754 binary64 multiplication of the dyadic `(m, s)` by the exactly
representable constant 100: the exact product rounded to 53 bits again. -/
def times100 (p : Nat × Nat) : Nat × Nat := fl53 (100 * p.1) (2 ^ p.2)

/-- `Math.round` on a nonnegative dyadic `(m, s)`: the integer nearest to
`m / 2 ^ s`, half toward positive infinity, computed exactly. -/
def roundHalfUp (p : Nat × Nat) : Nat := (2 * p.1 + 2 ^ p.2) / 2 ^ (p.2 + 1)

/-- The report handler's `Math.round((att / occ) * 100)` in IEEE-754 binary64
arithmetic: the division and the multiplication each round to nearest-even,
and `Math.round` is exact on the resulting double (`occ` positive). -/
def jsRate (att occ : Nat) : Nat := roundHalfUp (times100 (fl53 att occ))

/-- Summary field `attendanceRate`, `0` when no service occurred. -/
def attendanceRate (tbl : List AttRow) (m lo hi : String) : Nat :=
  if 0 < totalServices tbl lo hi then
    jsRate (totalAttended tbl m lo hi) (totalServices tbl lo hi)
  else 0

/-- Two-character date labels `d00`, `d01`, ..., the concrete service dates
of the divergence table below. -/
def dN (k : Nat) : String :=
  ⟨['d', Char.ofNat (48 + k / 10), Char.ofNat (48 + k % 10)]⟩

/-- A concrete attendance table with 40 service occurrences of which member
`m1` attended the first 23: the smallest state at which the IEEE-754 rate
computed by the handler differs from exact rounding of
`100 * attended / occurred`. -/
def cxTable : List AttRow :=
  (List.range 40).map (fun k => AttRow.mk (dN k) "S" "m1" (decide (k < 23)) 0)

/-! ## Livestream state: `vimeo_passwords` and `stream_access_codes` -/

/-- One row of the `vimeo_passwords` table. -/
structure VimeoRow where
  video_id : String
  password : String
  video_url : Option String
  active : Bool
  rotation_type : String
  created_at : Nat
deriving DecidableEq

/-- One row of the `stream_access_codes` table (`code` carries a
`UNIQUE` constraint). -/
structure CodeRow where
  id : Nat
  code : String
  member_name : String
  phone : Option String
  created_at : Nat
  expires_at : Nat
  first_used_at : Option Nat
  last_used_at : Option Nat
  use_count : Nat
  revoked : Bool
deriving DecidableEq

/-- The database state read and written by the stream-code verifier. -/
structure StreamState where
  codes : List CodeRow
  vimeos : List VimeoRow
deriving DecidableEq

/-- Model of `SELECT ... FROM stream_access_codes WHERE code = $1`
(`code` is unique, so the first match is the row). -/
def findCode (rows : List CodeRow) (c : String) : Option CodeRow :=
  rows.find? (fun r => r.code == c)

/-- Model of `SELECT ... FROM vimeo_passwords WHERE active = true ORDER BY
created_at DESC LIMIT 1`. -/
def pickLatest (rows : List VimeoRow) : Option VimeoRow :=
  (rows.filter (fun v => v.active)).foldl
    (fun acc v =>
      match acc with
      | none => some v
      | some a => if a.created_at < v.created_at then some v else acc)
    none

/-- Model of the usage-tracking `UPDATE`: `first_used_at =
COALESCE(first_used_at, CURRENT_TIMESTAMP), last_used_at = CURRENT_TIMESTAMP,
use_count = use_count + 1`. -/
def markUsed (r : CodeRow) (now : Nat) : CodeRow :=
  { r with
    first_used_at := some (r.first_used_at.getD now),
    last_used_at := some now,
    use_count := r.use_count + 1 }

/-- The responses of the `verify-stream-code` handler. -/
inductive VerifyResult
  | badFormat
  | notFound
  | codeRevoked
  | codeExpired
  | noActiveStream
  | ok (memberName videoId : String) (videoUrl : Option String)
      (password : String) (expiresAt : Nat)
deriving DecidableEq

/-- Whether a verification response is the success response. -/
def VerifyResult.isOk : VerifyResult → Bool
  | .ok _ _ _ _ _ => true
  | _ => false

/-- The `verify-stream-code` handler: reject malformed codes (400), upper-case
the input, look the code up, then check revocation, then expiry
(`new Date() > expires_at`), then fetch the active livestream password; only
when all checks pass update the usage counters and return the credentials. -/
def validateAccessCode (st : StreamState) (code : String) (now : Nat) :
    VerifyResult × StreamState :=
  if code == "" || code.length != 6 then (.badFormat, st)
  else
    match findCode st.codes (upStr code) with
    | none => (.notFound, st)
    | some accessCode =>
      if accessCode.revoked then (.codeRevoked, st)
      else if accessCode.expires_at < now then (.codeExpired, st)
      else
        match pickLatest st.vimeos with
        | none => (.noActiveStream, st)
        | some v =>
          (.ok accessCode.member_name v.video_id v.video_url v.password
             accessCode.expires_at,
           { st with
             codes := st.codes.map
               (fun r => if r.id == accessCode.id then markUsed r now else r) })

/-- State reached after a sequence of validation calls on one code. -/
def validateSeq (st : StreamState) (code : String) (ts : List Nat) : StreamState :=
  ts.foldl (fun s t => (validateAccessCode s code t).2) st

/-! ## Access-code issuance (`submit-absence` handler)

`generateAccessCode` draws 6 characters with `crypto.randomInt(chars.length)`
from an alphabet that omits the visually ambiguous `0`, `O`, `I`, `1` and
`L`; the insertion loop retries on a unique-constraint violation
(PostgreSQL error `23505`) while `attempts < 10`, rethrows any other error,
and reports `Unable to generate access code` when the attempts run out. -/

/-- The access-code alphabet literal of the handler. -/
def accessCodeChars : String := "ABCDEFGHJKMNPQRSTUVWXYZ23456789"

/-- Model of `generateAccessCode`: 6 characters indexed by the draws of
`crypto.randomInt(chars.length)` (each draw is below the alphabet size). -/
def generateAccessCode (draws : Nat → Nat) : String :=
  ⟨(List.range 6).map (fun i => accessCodeChars.data.getD (draws i) 'A')⟩

/-- Outcome of one `INSERT INTO stream_access_codes` attempt. -/
inductive InsOutcome
  | okRes
  | uniqueViolation
  | otherFail
deriving DecidableEq

/-- Result of the generation loop: a code accepted on a given attempt,
exhaustion after the retry budget, or a rethrown non-unique-violation error. -/
inductive GenOutcome
  | generated (attempt : Nat)
  | exhausted
  | raised
deriving DecidableEq

/-- The `while (!codeGenerated && attempts < 10)` loop, with `fuel` the
remaining budget `10 - attempts` and `k` the current `attempts` counter:
success stops the loop, error code `23505` increments `attempts` and retries
with a freshly generated code, any other error is rethrown. -/
def codeRetryAux (outcome : Nat → InsOutcome) : Nat → Nat → GenOutcome
  | 0, _ => .exhausted
  | fuel + 1, k =>
    match outcome k with
    | .okRes => .generated k
    | .uniqueViolation => codeRetryAux outcome fuel (k + 1)
    | .otherFail => .raised

/-- The full generation loop, starting at `attempts = 0` with budget 10. -/
def codeRetry (outcome : Nat → InsOutcome) : GenOutcome := codeRetryAux outcome 10 0

/-! ## Livestream password rotation (`vimeo-password` POST and the weekly
scheduled job)

Both handlers generate `generatePassword(8)` when no password is supplied,
attempt the Vimeo API push, and then — whatever the push outcome —
run `UPDATE vimeo_passwords SET active = false WHERE active = true` followed
by `INSERT ... VALUES (..., true, ...)`; the insert is never rolled back on a
push failure. -/

/-- The password alphabet literal of both rotation handlers. -/
def passwordChars : String :=
  "ABCDEFGHJKLMNPQRSTUVWXYZabcdefghjkmnpqrstuvwxyz23456789"

/-- Model of `generatePassword(length)`: character `i` is
`chars[randomBytes[i] % chars.length]`, one independent random byte per
position. -/
def generatePassword (len : Nat) (bytes : Nat → Nat) : String :=
  ⟨(List.range len).map
    (fun i => passwordChars.data.getD (bytes i % passwordChars.data.length) 'A')⟩

/-- The two rotation SQL statements shared by the manual and the scheduled
handler: deactivate every `active = true` row, then append the new row. -/
def rotateTable (tbl : List VimeoRow) (nr : VimeoRow) : List VimeoRow :=
  (tbl.map (fun v => if v.active then { v with active := false } else v)) ++ [nr]

/-- The `POST /vimeo-password` rotation: use the supplied password or generate
one, attempt the Vimeo push (its outcome `pushOk` is only reported, never
gating the writes), then deactivate-all and insert-new as active. -/
def vimeoPasswordRotate (tbl : List VimeoRow) (reqPassword : Option String)
    (bytes : Nat → Nat) (videoId : String) (videoUrl : Option String)
    (rotationType : Option String) (now : Nat) (pushOk : Bool) :
    List VimeoRow × Bool :=
  (rotateTable tbl
    { video_id := videoId, password := reqPassword.getD (generatePassword 8 bytes),
      video_url := videoUrl, active := true,
      rotation_type := rotationType.getD "manual", created_at := now },
   pushOk)

/-- The scheduled weekly rotation: always a freshly generated password with
rotation type `scheduled`; the push outcome never gates the writes. -/
def scheduledRotate (tbl : List VimeoRow) (bytes : Nat → Nat) (videoId : String)
    (videoUrl : Option String) (now : Nat) (pushOk : Bool) :
    List VimeoRow × Bool :=
  (rotateTable tbl
    { video_id := videoId, password := generatePassword 8 bytes,
      video_url := videoUrl, active := true, rotation_type := "scheduled",
      created_at := now },
   pushOk)

/-! ## Absence self-check-in (`submit-absence` handler)

The handler validates the required fields, then matches the caller's phone
(last 10 digits of its digit string) against
`RIGHT(REGEXP_REPLACE(phone, '[^0-9]', '', 'g'), 10)` over the `members`
table; with no match it answers 403 `notMember: true` without writing, and
with a match it inserts one `absentee_checkins` row (whose
`livestream_sent` flag the later SMS stage may set). -/

/-- The member-directory columns used by the phone match. -/
structure Member where
  id : String
  first_name : String
  last_name : String
  phone : Option String
deriving DecidableEq

/-- One row of the `absentee_checkins` table. -/
structure AbsCheckin where
  name : String
  phone : String
  reason : String
  prayer_request : Option String
  service_date : String
  livestream_sent : Bool
deriving DecidableEq

/-- The accepted absence reasons. -/
def validReasons : List String := ["sick", "vacation", "business", "other"]

/-- The SQL phone condition: the last 10 digits of the member's phone equal
the key (a `NULL` phone matches nothing). -/
def phoneMatches (m : Member) (key : String) : Bool :=
  match m.phone with
  | none => false
  | some p => lastTen (digitsOf p) == key

/-- The `submit-absence` handler: returns the HTTP status, the `notMember`
flag of the response body, and the `absentee_checkins` table after the
request.  `smsOk` abstracts the SMS stage that may flip `livestream_sent` on
the inserted row. -/
def submitAbsence (members : List Member) (checkins : List AbsCheckin)
    (name phone reason : String) (prayerRequest : Option String)
    (serviceDate : Option String) (today : String) (smsOk : Bool) :
    Nat × Bool × List AbsCheckin :=
  if trimStr name == "" then (400, false, checkins)
  else if trimStr phone == "" then (400, false, checkins)
  else if reason == "" then (400, false, checkins)
  else if !(validReasons.contains reason) then (400, false, checkins)
  else
    let key := lastTen (digitsOf phone)
    match members.find? (fun m => phoneMatches m key) with
    | none => (403, true, checkins)
    | some _ =>
      let effDate :=
        match serviceDate with
        | some s => if s == "" then today else s
        | none => today
      let pr :=
        match prayerRequest with
        | some s => if trimStr s == "" then none else some (trimStr s)
        | none => none
      (200, false,
        checkins ++ [AbsCheckin.mk (trimStr name) key reason pr effDate smsOk])

/-! Supporting lemmas for the attendance recorder. -/

theorem attKey_pairKey {d s i : String} {r : AttRow} (h : attKey d s i r = true) :
    pairKey d s r = true := by
  simp only [attKey, Bool.and_eq_true] at h
  simp only [pairKey, Bool.and_eq_true]
  exact h.1

theorem pairRows_kept (tbl : List AttRow) (d s : String) :
    pairRows (tbl.filter (fun r => !(pairKey d s r))) d s = [] := by
  simp only [pairRows, List.filter_filter]
  have : ∀ r : AttRow, (pairKey d s r && !pairKey d s r) = false := by
    intro r; cases pairKey d s r <;> rfl
  simp only [this, List.filter_false]

theorem foldl_upsert_fresh (d s : String) (now : Nat) :
    ∀ (ids : List String) (t : List AttRow), ids.Nodup →
      (∀ i ∈ ids, t.any (attKey d s i) = false) →
      ids.foldl (fun acc i => upsertOne acc d s i now) t
        = t ++ ids.map (fun i => mkAttRow d s i now) := by
  intro ids
  induction ids with
  | nil => intro t _ _; simp
  | cons j ids ih =>
    intro t hnd hfresh
    have hj : t.any (attKey d s j) = false := hfresh j (by simp)
    have hstep : upsertOne t d s j now = t ++ [mkAttRow d s j now] := by
      simp only [upsertOne, hj]
      simp
    have hnd' : ids.Nodup := (List.nodup_cons.mp hnd).2
    have hjnot : j ∉ ids := (List.nodup_cons.mp hnd).1
    have hfresh' : ∀ i ∈ ids, (t ++ [mkAttRow d s j now]).any (attKey d s i) = false := by
      intro i hi
      rw [List.any_append]
      have h1 : t.any (attKey d s i) = false := hfresh i (by simp [hi])
      have h2 : ([mkAttRow d s j now]).any (attKey d s i) = false := by
        have hji : (j == i) = false := beq_eq_false_iff_ne.mpr (fun h => hjnot (h ▸ hi))
        simp [attKey, mkAttRow, hji]
      rw [h1, h2]; rfl
    calc (j :: ids).foldl (fun acc i => upsertOne acc d s i now) t
        = ids.foldl (fun acc i => upsertOne acc d s i now) (t ++ [mkAttRow d s j now]) := by
          simp only [List.foldl_cons]
          rw [hstep]
      _ = (t ++ [mkAttRow d s j now]) ++ ids.map (fun i => mkAttRow d s i now) :=
          ih _ hnd' hfresh'
      _ = t ++ (j :: ids).map (fun i => mkAttRow d s i now) := by
          simp [List.append_assoc]

theorem kept_fresh (tbl : List AttRow) (d s : String) :
    ∀ i, (tbl.filter (fun r => !(pairKey d s r))).any (attKey d s i) = false := by
  intro i
  rw [Bool.eq_false_iff]
  intro hany
  obtain ⟨r, hr, hkey⟩ := List.any_eq_true.mp hany
  have hpair := attKey_pairKey hkey
  have := (List.mem_filter.mp hr).2
  rw [hpair] at this
  exact absurd this (by simp)

theorem pairRows_append_inserted (kept : List AttRow) (d s : String) (P : List String) (now : Nat)
    (hkept : pairRows kept d s = []) :
    pairRows (kept ++ P.map (fun i => mkAttRow d s i now)) d s
      = P.map (fun i => mkAttRow d s i now) := by
  simp only [pairRows] at *
  rw [List.filter_append, hkept, List.nil_append]
  apply List.filter_eq_self.mpr
  intro r hr
  obtain ⟨i, _, rfl⟩ := List.mem_map.mp hr
  simp [pairKey, mkAttRow]

/-- C1: after a successful `recordAttendance(date, serviceType, P)`, the
attendance rows for the normalized `(date, serviceType)` pair are exactly one
`present = TRUE` row per member of `P`, independently of whatever rows existed
for that pair before the call; in particular resubmission is idempotent in
final-state terms and an empty `P` leaves zero rows for the pair. -/
theorem recordAttendance_replaces_pair (tbl : List AttRow) (date serviceType : String)
    (P : List String) (now : Nat) (f : SqlFaults)
    (hok : (recordAttendance tbl date serviceType P now f).status = 200) :
    pairRows (recordAttendance tbl date serviceType P now f).table
        (normalizeDate date) serviceType
      = P.map (fun i => mkAttRow (normalizeDate date) serviceType i now) := by
  by_cases h0 : (date == "" || serviceType == "") = true
  · simp [recordAttendance, h0] at hok
  · by_cases hb : f.failBegin = true
    · simp [recordAttendance, h0, hb] at hok
    · by_cases hd : f.failDel = true
      · simp [recordAttendance, h0, hb, hd] at hok
      · by_cases hE : P.isEmpty = true
        · by_cases hc : f.failCommit = true
          · simp [recordAttendance, h0, hb, hd, hE, hc] at hok
          · have hP : P = [] := List.isEmpty_iff.mp hE
            subst hP
            simp [recordAttendance, h0, hb, hd, hc]
            simpa using pairRows_kept tbl (normalizeDate date) serviceType
        · by_cases hi : f.failIns = true
          · simp [recordAttendance, h0, hb, hd, hE, hi] at hok
          · by_cases hnd : P.Nodup
            · by_cases hc : f.failCommit = true
              · simp [recordAttendance, insertAttendance, h0, hb, hd, hE, hi, hnd, hc] at hok
              · have hfold := foldl_upsert_fresh (normalizeDate date) serviceType now P
                  (tbl.filter (fun r => !(pairKey (normalizeDate date) serviceType r))) hnd
                  (fun i _ => kept_fresh tbl (normalizeDate date) serviceType i)
                simp [recordAttendance, insertAttendance, h0, hb, hd, hE, hi, hnd, hc]
                rw [hfold]
                exact pairRows_append_inserted _ _ _ _ _
                  (pairRows_kept tbl (normalizeDate date) serviceType)
            · simp [recordAttendance, insertAttendance, h0, hb, hd, hE, hi, hnd] at hok

/-- C1 witness: recording `["m1", "m2"]` over a table that already holds stale
rows for the pair leaves exactly the two fresh `present = TRUE` rows. -/
theorem recordAttendance_replaces_pair_check :
    (recordAttendance
        [mkAttRow "2024-05-05" "Sunday Morning" "m1" 1,
         mkAttRow "2024-05-05" "Sunday Morning" "m3" 1]
        "2024-05-05T10:00" "Sunday Morning" ["m1", "m2"] 7 noFaults).status = 200 ∧
    pairRows (recordAttendance
        [mkAttRow "2024-05-05" "Sunday Morning" "m1" 1,
         mkAttRow "2024-05-05" "Sunday Morning" "m3" 1]
        "2024-05-05T10:00" "Sunday Morning" ["m1", "m2"] 7 noFaults).table
        (normalizeDate "2024-05-05T10:00") "Sunday Morning"
      = [mkAttRow "2024-05-05" "Sunday Morning" "m1" 7,
         mkAttRow "2024-05-05" "Sunday Morning" "m2" 7] := by
  refine ⟨by decide, ?_⟩
  have h := recordAttendance_replaces_pair
    [mkAttRow "2024-05-05" "Sunday Morning" "m1" 1,
     mkAttRow "2024-05-05" "Sunday Morning" "m3" 1]
    "2024-05-05T10:00" "Sunday Morning" ["m1", "m2"] 7 noFaults (by decide)
  rw [h]
  decide

/-- C3: if any SQL statement executed inside the `recordAttendance`
transaction fails — `BEGIN`, the `DELETE`, the bulk `INSERT` (whether through
an injected fault or through the duplicate-key error raised on a repeated
attendee id), or `COMMIT` — the transaction is rolled back: the handler
returns a 500 error response and the attendance table is exactly as it was
before the call, so no partial delete-without-insert state is ever visible. -/
theorem recordAttendance_rollback (tbl : List AttRow) (date serviceType : String)
    (P : List String) (now : Nat) (f : SqlFaults)
    (hdate : (date == "") = false) (hsvc : (serviceType == "") = false)
    (hfail : f.failBegin = true ∨ f.failDel = true ∨
      (P ≠ [] ∧ (f.failIns = true ∨ ¬ P.Nodup)) ∨ f.failCommit = true) :
    (recordAttendance tbl date serviceType P now f).status = 500 ∧
    (recordAttendance tbl date serviceType P now f).table = tbl := by
  have h0 : (date == "" || serviceType == "") = false := by
    rw [hdate, hsvc]; rfl
  by_cases hb : f.failBegin = true
  · constructor <;> simp [recordAttendance, h0, hb]
  · by_cases hd : f.failDel = true
    · constructor <;> simp [recordAttendance, h0, hb, hd]
    · by_cases hE : P.isEmpty = true
      · have hP : P = [] := List.isEmpty_iff.mp hE
        have hc : f.failCommit = true := by
          rcases hfail with h | h | h | h
          · exact absurd h hb
          · exact absurd h hd
          · exact absurd hP h.1
          · exact h
        constructor <;> simp [recordAttendance, h0, hb, hd, hE, hc]
      · by_cases hi : f.failIns = true
        · constructor <;> simp [recordAttendance, h0, hb, hd, hE, hi]
        · by_cases hnd : P.Nodup
          · have hc : f.failCommit = true := by
              rcases hfail with h | h | h | h
              · exact absurd h hb
              · exact absurd h hd
              · rcases h.2 with h2 | h2
                · exact absurd h2 hi
                · exact absurd hnd h2
              · exact h
            constructor <;>
              simp [recordAttendance, insertAttendance, h0, hb, hd, hE, hi, hnd, hc]
          · constructor <;>
              simp [recordAttendance, insertAttendance, h0, hb, hd, hE, hi, hnd]

/-- C3 witness: a duplicate attendee id makes the insert statement fail, and
the pre-existing table survives untouched with a 500 response. -/
theorem recordAttendance_rollback_check :
    (recordAttendance [mkAttRow "2024-05-05" "Sunday Morning" "m3" 1]
        "2024-05-05" "Sunday Morning" ["m1", "m1"] 7 noFaults).status = 500 ∧
    (recordAttendance [mkAttRow "2024-05-05" "Sunday Morning" "m3" 1]
        "2024-05-05" "Sunday Morning" ["m1", "m1"] 7 noFaults).table
      = [mkAttRow "2024-05-05" "Sunday Morning" "m3" 1] :=
  recordAttendance_rollback _ _ _ _ _ _ (by decide) (by decide)
    (Or.inr (Or.inr (Or.inl ⟨by decide, Or.inr (by decide)⟩)))

theorem mem_occurredServices (tbl : List AttRow) (lo hi : String) (p : SvcPair) :
    p ∈ occurredServices tbl lo hi ↔
      ∃ r ∈ tbl, inRange lo hi r.date = true ∧ toPair r = p := by
  simp only [occurredServices, List.mem_dedup, List.mem_map, List.mem_filter]
  aesop

theorem memberAttended_iff (tbl : List AttRow) (m lo hi : String) (p : SvcPair) :
    memberAttended tbl m lo hi p = true ↔
      ∃ r ∈ tbl, r.member_id = m ∧ inRange lo hi r.date = true ∧
        r.present = true ∧ toPair r = p := by
  simp only [memberAttended, List.any_eq_true, Bool.and_eq_true, beq_iff_eq]
  aesop

/-- Counterexample for claim C2's rate formula: over `cxTable`, 40 services
occurred in the range and member `m1` attended 23 of them; the reported
attendance rate, computed the way the handler computes it in IEEE-754
binary64 arithmetic, is 57, whereas the claimed exact
`round(100 * attended / occurred) = round(57.5)` is 58. -/
theorem attendanceRate_float_cx :
    totalServices cxTable "d00" "d39" = 40
    ∧ ((occurredServices cxTable "d00" "d39").filter
        (memberAttended cxTable "m1" "d00" "d39")).length = 23
    ∧ attendanceRate cxTable "m1" "d00" "d39" = 57
    ∧ (200 * 23 + 40) / (2 * 40) = 58
    ∧ attendanceRate cxTable "m1" "d00" "d39" ≠ 58 := by
  refine ⟨by decide, by decide, by decide, by decide, by decide⟩

/-- C2 (amended in the rate clause): the absence computation partitions the
occurred services exactly.  The absence list is duplicate-free; a pair is an
absence iff some attendance row in the range has that occurrence key and no
`present = true` row of the member does; attended plus absent equals
occurred; the subtraction-derived `totalAttended` equals the true count of
occurred services the member attended; and the reported rate is the IEEE-754
binary64 evaluation of `Math.round((attended / occurred) * 100)` (`0` when
`occurred = 0`), which differs from exact rounding at states such as 23
attended of 40 occurred. -/
theorem memberAbsences_partition (tbl : List AttRow) (m lo hi : String) :
    (memberAbsences tbl m lo hi).Nodup
    ∧ (∀ p : SvcPair, p ∈ memberAbsences tbl m lo hi ↔
        ((∃ r ∈ tbl, inRange lo hi r.date = true ∧ toPair r = p) ∧
         ¬ ∃ r ∈ tbl, r.member_id = m ∧ inRange lo hi r.date = true ∧
             r.present = true ∧ toPair r = p))
    ∧ ((occurredServices tbl lo hi).filter (memberAttended tbl m lo hi)).length
        + totalAbsences tbl m lo hi = totalServices tbl lo hi
    ∧ totalAttended tbl m lo hi
        = ((occurredServices tbl lo hi).filter (memberAttended tbl m lo hi)).length
    ∧ attendanceRate tbl m lo hi =
        (if 0 < totalServices tbl lo hi then
          jsRate
            (((occurredServices tbl lo hi).filter (memberAttended tbl m lo hi)).length)
            (totalServices tbl lo hi)
         else 0) := by
  have hcount :
      ((occurredServices tbl lo hi).filter (memberAttended tbl m lo hi)).length
        + totalAbsences tbl m lo hi = totalServices tbl lo hi := by
    have h := List.length_eq_length_filter_add (l := occurredServices tbl lo hi)
      (memberAttended tbl m lo hi)
    simp only [totalAbsences, memberAbsences, totalServices]
    omega
  have hatt : totalAttended tbl m lo hi
      = ((occurredServices tbl lo hi).filter (memberAttended tbl m lo hi)).length := by
    simp only [totalAttended]
    omega
  refine ⟨?_, ?_, hcount, hatt, ?_⟩
  · exact List.Nodup.filter _ (List.nodup_dedup _)
  · intro p
    simp only [memberAbsences, List.mem_filter, Bool.not_eq_true']
    rw [mem_occurredServices, Bool.eq_false_iff, Ne, memberAttended_iff]
  · simp only [attendanceRate, hatt]

theorem pickLatest_eq_none {rows : List VimeoRow}
    (h : ∀ v ∈ rows, v.active = false) : pickLatest rows = none := by
  have hfil : rows.filter (fun v => v.active) = [] := by
    rw [List.filter_eq_nil_iff]
    intro v hv
    simp [h v hv]
  simp [pickLatest, hfil]

/-- C4 counterexample: the input `"ABC"` matches no stored code (the code
table is empty), yet the handler rejects it with the 400 invalid-format
response before any lookup, not with the NotFound failure the claim
prescribes for every input code without a matching row. -/
theorem validateAccessCode_short_code_cx :
    findCode (StreamState.mk [] []).codes (upStr "ABC") = none ∧
    validateAccessCode (StreamState.mk [] []) "ABC" 0
      = (VerifyResult.badFormat, StreamState.mk [] []) ∧
    VerifyResult.badFormat ≠ VerifyResult.notFound := by
  refine ⟨rfl, rfl, by decide⟩

/-- C4 (amended to well-formed six-character inputs): the handler upper-cases
the input before lookup and checks, in order, existence, the revoked flag,
the expiry timestamp, and the existence of an active livestream password: no
matching row fails NotFound; a revoked code fails Revoked whatever its
expiry; an expired code fails Expired (returning no credentials) whatever the
stream state; a live code with no active password row fails NoActiveStream;
and only when all four checks pass are the stream credentials returned. -/
theorem validateAccessCode_cases (st : StreamState) (code : String) (now : Nat)
    (hlen : code.length = 6) :
    (findCode st.codes (upStr code) = none →
      validateAccessCode st code now = (.notFound, st))
    ∧ (∀ r, findCode st.codes (upStr code) = some r → r.revoked = true →
        validateAccessCode st code now = (.codeRevoked, st))
    ∧ (∀ r, findCode st.codes (upStr code) = some r → r.revoked = false →
        r.expires_at < now →
        validateAccessCode st code now = (.codeExpired, st))
    ∧ (∀ r, findCode st.codes (upStr code) = some r → r.revoked = false →
        ¬ r.expires_at < now → pickLatest st.vimeos = none →
        validateAccessCode st code now = (.noActiveStream, st))
    ∧ (∀ r v, findCode st.codes (upStr code) = some r → r.revoked = false →
        ¬ r.expires_at < now → pickLatest st.vimeos = some v →
        (validateAccessCode st code now).1
          = .ok r.member_name v.video_id v.video_url v.password r.expires_at) := by
  have hne : (code == "") = false := by
    rw [beq_eq_false_iff_ne]
    intro h
    rw [h] at hlen
    simp at hlen
  have hlen6 : (code.length != 6) = false := by
    simp [hlen]
  refine ⟨?_, ?_, ?_, ?_, ?_⟩
  · intro hfind
    simp [validateAccessCode, hne, hlen6, hfind]
  · intro r hfind hrev
    simp [validateAccessCode, hne, hlen6, hfind, hrev]
  · intro r hfind hrev hexp
    simp [validateAccessCode, hne, hlen6, hfind, hrev, hexp]
  · intro r hfind hrev hexp hvim
    simp [validateAccessCode, hne, hlen6, hfind, hrev, hexp, hvim]
  · intro r v hfind hrev hexp hvim
    simp [validateAccessCode, hne, hlen6, hfind, hrev, hexp, hvim]

/-- C4 witness: a revoked but unexpired code is rejected as Revoked. -/
theorem validateAccessCode_cases_check :
    validateAccessCode
        (StreamState.mk
          [{ id := 1, code := "ABCDEF", member_name := "Jane Doe", phone := none,
             created_at := 0, expires_at := 100, first_used_at := none,
             last_used_at := none, use_count := 0, revoked := true }]
          [{ video_id := "v1", password := "pw", video_url := none,
             active := true, rotation_type := "manual", created_at := 0 }])
        "abcdef" 5
      = (VerifyResult.codeRevoked,
         StreamState.mk
          [{ id := 1, code := "ABCDEF", member_name := "Jane Doe", phone := none,
             created_at := 0, expires_at := 100, first_used_at := none,
             last_used_at := none, use_count := 0, revoked := true }]
          [{ video_id := "v1", password := "pw", video_url := none,
             active := true, rotation_type := "manual", created_at := 0 }]) :=
  (validateAccessCode_cases _ "abcdef" 5 (by decide)).2.1
    { id := 1, code := "ABCDEF", member_name := "Jane Doe", phone := none,
      created_at := 0, expires_at := 100, first_used_at := none,
      last_used_at := none, use_count := 0, revoked := true }
    (by decide) (by decide)

/-- C10: when the code exists, is not revoked and is not expired but no
`vimeo_passwords` row is active, validation fails with NoActiveStream and the
whole database state — in particular `use_count`, `first_used_at` and
`last_used_at` of the code row — is left exactly as it was, so failed
validations are never counted as uses. -/
theorem validateAccessCode_noStream_frame (st : StreamState) (code : String)
    (now : Nat) (r : CodeRow)
    (hlen : code.length = 6)
    (hfind : findCode st.codes (upStr code) = some r)
    (hrev : r.revoked = false)
    (hexp : ¬ r.expires_at < now)
    (hvim : ∀ v ∈ st.vimeos, v.active = false) :
    validateAccessCode st code now = (.noActiveStream, st) := by
  have hne : (code == "") = false := by
    rw [beq_eq_false_iff_ne]
    intro h
    rw [h] at hlen
    simp at hlen
  have hlen6 : (code.length != 6) = false := by
    simp [hlen]
  simp [validateAccessCode, hne, hlen6, hfind, hrev, hexp, pickLatest_eq_none hvim]

/-- C10 witness: with only an inactive password row on file, a valid code is
rejected 503-style and the state, usage counters included, is untouched. -/
theorem validateAccessCode_noStream_frame_check :
    validateAccessCode
        (StreamState.mk
          [{ id := 1, code := "ABCDEF", member_name := "Jane Doe", phone := none,
             created_at := 0, expires_at := 100, first_used_at := none,
             last_used_at := none, use_count := 0, revoked := false }]
          [{ video_id := "v1", password := "pw", video_url := none,
             active := false, rotation_type := "manual", created_at := 0 }])
        "ABCDEF" 5
      = (VerifyResult.noActiveStream,
         StreamState.mk
          [{ id := 1, code := "ABCDEF", member_name := "Jane Doe", phone := none,
             created_at := 0, expires_at := 100, first_used_at := none,
             last_used_at := none, use_count := 0, revoked := false }]
          [{ video_id := "v1", password := "pw", video_url := none,
             active := false, rotation_type := "manual", created_at := 0 }]) :=
  validateAccessCode_noStream_frame _ _ _
    { id := 1, code := "ABCDEF", member_name := "Jane Doe", phone := none,
      created_at := 0, expires_at := 100, first_used_at := none,
      last_used_at := none, use_count := 0, revoked := false }
    (by decide) (by decide) (by decide) (by decide) (by decide)

theorem validateAccessCode_state_shape (st : StreamState) (code : String) (t : Nat) :
    (validateAccessCode st code t).2 = st ∨
    ∃ tgt, (validateAccessCode st code t).2 =
      { st with codes := st.codes.map (fun r => if r.id == tgt then markUsed r t else r) } := by
  unfold validateAccessCode
  split
  · left; rfl
  · split
    · left; rfl
    · rename_i accessCode _
      split
      · left; rfl
      · split
        · left; rfl
        · split
          · left; rfl
          · right; exact ⟨accessCode.id, rfl⟩

theorem validateAccessCode_codes_length (st : StreamState) (code : String) (t : Nat) :
    ((validateAccessCode st code t).2).codes.length = st.codes.length := by
  rcases validateAccessCode_state_shape st code t with h | ⟨tgt, h⟩ <;> simp [h]

theorem validateAccessCode_use_count_mono (st : StreamState) (code : String) (t : Nat)
    (i : Nat) (h1 : i < st.codes.length)
    (h2 : i < ((validateAccessCode st code t).2).codes.length) :
    (st.codes.get ⟨i, h1⟩).use_count
      ≤ (((validateAccessCode st code t).2).codes.get ⟨i, h2⟩).use_count := by
  have hsh := validateAccessCode_state_shape st code t
  revert h2
  generalize hL : ((validateAccessCode st code t).2).codes = l'
  intro h2
  rcases hsh with h | ⟨tgt, h⟩
  · rw [h] at hL
    subst hL
    exact Nat.le_refl _
  · rw [h] at hL
    have hL' : st.codes.map (fun r => if r.id == tgt then markUsed r t else r) = l' := hL
    subst hL'
    simp only [List.get_eq_getElem, List.getElem_map]
    split
    · simp [markUsed, Nat.le_succ]
    · exact Nat.le_refl _

theorem validateSeq_use_count_mono (code : String) :
    ∀ (ts : List Nat) (st : StreamState) (i : Nat)
      (h1 : i < st.codes.length) (h2 : i < (validateSeq st code ts).codes.length),
      (st.codes.get ⟨i, h1⟩).use_count
        ≤ ((validateSeq st code ts).codes.get ⟨i, h2⟩).use_count := by
  intro ts
  induction ts with
  | nil => intro st i h1 h2; exact Nat.le_refl _
  | cons t ts ih =>
    intro st i h1 h2
    simp only [validateSeq, List.foldl_cons] at h2 ⊢
    have hlen : i < ((validateAccessCode st code t).2).codes.length := by
      rw [validateAccessCode_codes_length]; exact h1
    exact Nat.le_trans (validateAccessCode_use_count_mono st code t i h1 hlen)
      (ih ((validateAccessCode st code t).2) i hlen h2)

theorem findCode_map (rows : List CodeRow) (c : String) (f : CodeRow → CodeRow)
    (hf : ∀ r, (f r).code = r.code) :
    findCode (rows.map f) c = (findCode rows c).map f := by
  induction rows with
  | nil => rfl
  | cons r rows ih =>
    simp only [findCode, List.map_cons, List.find?_cons, hf r]
    by_cases hc : (r.code == c) = true
    · simp [hc]
    · have ihx := ih
      simp only [findCode] at ihx
      simp [hc, ihx]

theorem validateAccessCode_ok_update (st : StreamState) (code : String) (now : Nat)
    (r : CodeRow)
    (hfind : findCode st.codes (upStr code) = some r)
    (hok : ((validateAccessCode st code now).1).isOk = true) :
    (validateAccessCode st code now).2
      = { st with
          codes := st.codes.map (fun x => if x.id == r.id then markUsed x now else x) } := by
  by_cases hfmt : (code == "" || code.length != 6) = true
  · simp [validateAccessCode, hfmt, VerifyResult.isOk] at hok
  · by_cases hrev : r.revoked = true
    · simp [validateAccessCode, hfmt, hfind, hrev, VerifyResult.isOk] at hok
    · by_cases hexp : r.expires_at < now
      · simp [validateAccessCode, hfmt, hfind, hrev, hexp, VerifyResult.isOk] at hok
      · cases hpick : pickLatest st.vimeos with
        | none =>
          simp [validateAccessCode, hfmt, hfind, hrev, hexp, hpick,
            VerifyResult.isOk] at hok
        | some v =>
          simp [validateAccessCode, hfmt, hfind, hrev, hexp, hpick]

theorem validateAccessCode_marks_found (st : StreamState) (code : String) (now : Nat)
    (r : CodeRow)
    (hfind : findCode st.codes (upStr code) = some r)
    (hok : ((validateAccessCode st code now).1).isOk = true) :
    findCode ((validateAccessCode st code now).2).codes (upStr code)
      = some (markUsed r now) := by
  rw [validateAccessCode_ok_update st code now r hfind hok]
  have hf : ∀ x : CodeRow,
      ((if x.id == r.id then markUsed x now else x) : CodeRow).code = x.code := by
    intro x; split <;> rfl
  show findCode (st.codes.map (fun x => if x.id == r.id then markUsed x now else x))
      (upStr code) = some (markUsed r now)
  rw [findCode_map _ _ _ hf, hfind]
  simp [markUsed]

theorem validateAccessCode_vimeos_frame (st : StreamState) (code : String) (t : Nat) :
    ((validateAccessCode st code t).2).vimeos = st.vimeos := by
  rcases validateAccessCode_state_shape st code t with h | ⟨tgt, h⟩ <;> simp [h]

theorem validateAccessCode_ok_of (st : StreamState) (code : String) (now : Nat)
    (r : CodeRow)
    (hlen : code.length = 6)
    (hfind : findCode st.codes (upStr code) = some r)
    (hrev : r.revoked = false) (hexp : ¬ r.expires_at < now)
    (hvim : (pickLatest st.vimeos).isSome = true) :
    ((validateAccessCode st code now).1).isOk = true := by
  have hne : (code == "") = false := by
    rw [beq_eq_false_iff_ne]
    intro h
    rw [h] at hlen
    simp at hlen
  have hlen6 : (code.length != 6) = false := by
    simp [hlen]
  obtain ⟨v, hv⟩ := Option.isSome_iff_exists.mp hvim
  simp [validateAccessCode, hne, hlen6, hfind, hrev, hexp, hv, VerifyResult.isOk]

/-- C5: usage tracking is monotonic.  Across any sequence of validation calls
no code row's `use_count` ever decreases; each successful validation turns the
looked-up row into `markUsed`, i.e. adds exactly 1 to `use_count`, keeps an
already-set `first_used_at` (setting it only on the first success) and moves
`last_used_at` to the call's timestamp; and validating a fresh code three
times successfully ends with `use_count = 3`, `first_used_at` equal to the
first call's timestamp and `last_used_at` equal to the third's. -/
theorem accessCode_usage_invariant :
    (∀ (st : StreamState) (code : String) (ts : List Nat) (i : Nat)
        (h1 : i < st.codes.length) (h2 : i < (validateSeq st code ts).codes.length),
        (st.codes.get ⟨i, h1⟩).use_count
          ≤ ((validateSeq st code ts).codes.get ⟨i, h2⟩).use_count)
    ∧ (∀ (st : StreamState) (code : String) (now : Nat) (r : CodeRow),
        findCode st.codes (upStr code) = some r →
        ((validateAccessCode st code now).1).isOk = true →
        findCode ((validateAccessCode st code now).2).codes (upStr code)
          = some (markUsed r now))
    ∧ (∀ (st : StreamState) (code : String) (r : CodeRow) (t1 t2 t3 : Nat),
        code.length = 6 →
        findCode st.codes (upStr code) = some r →
        r.use_count = 0 → r.first_used_at = none → r.revoked = false →
        ¬ r.expires_at < t1 → ¬ r.expires_at < t2 → ¬ r.expires_at < t3 →
        (pickLatest st.vimeos).isSome = true →
        ((validateAccessCode st code t1).1).isOk = true
        ∧ ((validateAccessCode ((validateAccessCode st code t1).2) code t2).1).isOk
            = true
        ∧ ((validateAccessCode ((validateAccessCode
              ((validateAccessCode st code t1).2) code t2).2) code t3).1).isOk = true
        ∧ findCode ((validateSeq st code [t1, t2, t3]).codes) (upStr code)
            = some { r with use_count := 3, first_used_at := some t1,
                            last_used_at := some t3 }) := by
  refine ⟨fun st code ts => validateSeq_use_count_mono code ts st,
          fun st code now r => validateAccessCode_marks_found st code now r, ?_⟩
  intro st code r t1 t2 t3 hlen hfind hcount hfirst hrev hexp1 hexp2 hexp3 hvim
  have hok1 : ((validateAccessCode st code t1).1).isOk = true :=
    validateAccessCode_ok_of st code t1 r hlen hfind hrev hexp1 hvim
  have hfind1 : findCode ((validateAccessCode st code t1).2).codes (upStr code)
      = some (markUsed r t1) :=
    validateAccessCode_marks_found st code t1 r hfind hok1
  have hvim1 : (pickLatest ((validateAccessCode st code t1).2).vimeos).isSome = true := by
    rw [validateAccessCode_vimeos_frame]; exact hvim
  have hok2 : ((validateAccessCode ((validateAccessCode st code t1).2) code t2).1).isOk
      = true :=
    validateAccessCode_ok_of _ code t2 (markUsed r t1) hlen hfind1
      (by simp [markUsed, hrev]) (by simp [markUsed]; exact Nat.not_lt.mp hexp2) hvim1
  have hfind2 : findCode ((validateAccessCode
      ((validateAccessCode st code t1).2) code t2).2).codes (upStr code)
      = some (markUsed (markUsed r t1) t2) :=
    validateAccessCode_marks_found _ code t2 (markUsed r t1) hfind1 hok2
  have hvim2 : (pickLatest ((validateAccessCode
      ((validateAccessCode st code t1).2) code t2).2).vimeos).isSome = true := by
    rw [validateAccessCode_vimeos_frame, validateAccessCode_vimeos_frame]; exact hvim
  have hok3 : ((validateAccessCode ((validateAccessCode
      ((validateAccessCode st code t1).2) code t2).2) code t3).1).isOk = true :=
    validateAccessCode_ok_of _ code t3 (markUsed (markUsed r t1) t2) hlen hfind2
      (by simp [markUsed, hrev]) (by simp [markUsed]; exact Nat.not_lt.mp hexp3) hvim2
  have hfind3 : findCode ((validateAccessCode ((validateAccessCode
      ((validateAccessCode st code t1).2) code t2).2) code t3).2).codes (upStr code)
      = some (markUsed (markUsed (markUsed r t1) t2) t3) :=
    validateAccessCode_marks_found _ code t3 (markUsed (markUsed r t1) t2) hfind2 hok3
  refine ⟨hok1, hok2, hok3, ?_⟩
  have hseq : validateSeq st code [t1, t2, t3]
      = (validateAccessCode ((validateAccessCode
          ((validateAccessCode st code t1).2) code t2).2) code t3).2 := by
    simp [validateSeq]
  rw [hseq, hfind3]
  have : markUsed (markUsed (markUsed r t1) t2) t3
      = { r with use_count := 3, first_used_at := some t1, last_used_at := some t3 } := by
    simp [markUsed, hcount, hfirst]
  rw [this]

/-- C5 witness: a fresh code validated at times 1, 2 and 3 succeeds each time
and ends with `use_count = 3`, `first_used_at = 1` and `last_used_at = 3`. -/
theorem accessCode_usage_invariant_check :
    ((validateAccessCode
        (StreamState.mk
          [{ id := 1, code := "ABCDEF", member_name := "Jane Doe", phone := none,
             created_at := 0, expires_at := 100, first_used_at := none,
             last_used_at := none, use_count := 0, revoked := false }]
          [{ video_id := "v1", password := "pw", video_url := none,
             active := true, rotation_type := "manual", created_at := 0 }])
        "ABCDEF" 1).1).isOk = true
    ∧ ((validateAccessCode ((validateAccessCode
        (StreamState.mk
          [{ id := 1, code := "ABCDEF", member_name := "Jane Doe", phone := none,
             created_at := 0, expires_at := 100, first_used_at := none,
             last_used_at := none, use_count := 0, revoked := false }]
          [{ video_id := "v1", password := "pw", video_url := none,
             active := true, rotation_type := "manual", created_at := 0 }])
        "ABCDEF" 1).2) "ABCDEF" 2).1).isOk = true
    ∧ ((validateAccessCode ((validateAccessCode ((validateAccessCode
        (StreamState.mk
          [{ id := 1, code := "ABCDEF", member_name := "Jane Doe", phone := none,
             created_at := 0, expires_at := 100, first_used_at := none,
             last_used_at := none, use_count := 0, revoked := false }]
          [{ video_id := "v1", password := "pw", video_url := none,
             active := true, rotation_type := "manual", created_at := 0 }])
        "ABCDEF" 1).2) "ABCDEF" 2).2) "ABCDEF" 3).1).isOk = true
    ∧ findCode ((validateSeq
        (StreamState.mk
          [{ id := 1, code := "ABCDEF", member_name := "Jane Doe", phone := none,
             created_at := 0, expires_at := 100, first_used_at := none,
             last_used_at := none, use_count := 0, revoked := false }]
          [{ video_id := "v1", password := "pw", video_url := none,
             active := true, rotation_type := "manual", created_at := 0 }])
        "ABCDEF" [1, 2, 3]).codes) (upStr "ABCDEF")
      = some { id := 1, code := "ABCDEF", member_name := "Jane Doe", phone := none,
               created_at := 0, expires_at := 100, first_used_at := some 1,
               last_used_at := some 3, use_count := 3, revoked := false } :=
  accessCode_usage_invariant.2.2
    (StreamState.mk
      [{ id := 1, code := "ABCDEF", member_name := "Jane Doe", phone := none,
         created_at := 0, expires_at := 100, first_used_at := none,
         last_used_at := none, use_count := 0, revoked := false }]
      [{ video_id := "v1", password := "pw", video_url := none,
         active := true, rotation_type := "manual", created_at := 0 }])
    "ABCDEF"
    { id := 1, code := "ABCDEF", member_name := "Jane Doe", phone := none,
      created_at := 0, expires_at := 100, first_used_at := none,
      last_used_at := none, use_count := 0, revoked := false }
    1 2 3 (by decide) (by decide) rfl rfl rfl (by decide) (by decide) (by decide)
    (by decide)

/-- C6 counterexample: the alphabet actually used by `generateAccessCode` has
31 symbols, not the 32 the claim states (26 letters and 10 digits minus the
five ambiguous characters leave 31). -/
theorem accessCodeChars_31_cx :
    accessCodeChars.length = 31 ∧ accessCodeChars.length ≠ 32 := by
  refine ⟨by decide, by decide⟩

/-- C6 (amended to the 31-symbol alphabet): codes are 6 characters drawn from
the 31-symbol duplicate-free alphabet that excludes `0`, `O`, `I`, `1` and
`L`; a unique-violation on insertion retries with a fresh code up to 10
attempts in total, after which issuance fails (reported as
`Unable to generate access code`); an error other than a unique violation is
rethrown, not retried. -/
theorem generateAccessCode_spec :
    (accessCodeChars.data.length = 31
      ∧ accessCodeChars.data.Nodup
      ∧ ∀ c ∈ accessCodeChars.data,
          c ≠ '0' ∧ c ≠ 'O' ∧ c ≠ 'I' ∧ c ≠ '1' ∧ c ≠ 'L')
    ∧ (∀ draws : Nat → Nat, (∀ i, draws i < 31) →
        (generateAccessCode draws).length = 6
          ∧ ∀ c ∈ (generateAccessCode draws).data, c ∈ accessCodeChars.data)
    ∧ (∀ outcome : Nat → InsOutcome,
        ((∀ k, k < 10 → outcome k = .uniqueViolation) →
          codeRetry outcome = .exhausted)
        ∧ (∀ j, j < 10 → (∀ k, k < j → outcome k = .uniqueViolation) →
            outcome j = .okRes → codeRetry outcome = .generated j)
        ∧ (∀ j, j < 10 → (∀ k, k < j → outcome k = .uniqueViolation) →
            outcome j = .otherFail → codeRetry outcome = .raised)) := by
  refine ⟨⟨by decide, by decide, by decide⟩, ?_, ?_⟩
  · intro draws hd
    refine ⟨rfl, ?_⟩
    intro c hc
    simp only [generateAccessCode, List.mem_map, List.mem_range] at hc
    obtain ⟨i, _, rfl⟩ := hc
    have hlt : draws i < accessCodeChars.data.length := by
      have h31 : accessCodeChars.data.length = 31 := by decide
      rw [h31]; exact hd i
    rw [List.getD_eq_getElem _ _ hlt]
    exact List.getElem_mem hlt
  · intro outcome
    have haux1 : ∀ fuel k,
        (∀ i, k ≤ i → i < k + fuel → outcome i = .uniqueViolation) →
        codeRetryAux outcome fuel k = .exhausted := by
      intro fuel
      induction fuel with
      | zero => intro k _; rfl
      | succ n ih =>
        intro k h
        have hk : outcome k = .uniqueViolation := h k (Nat.le_refl k) (by omega)
        simp only [codeRetryAux, hk]
        exact ih (k + 1) (fun i h1 h2 => h i (by omega) (by omega))
    have haux2 : ∀ fuel k j, k ≤ j → j < k + fuel →
        (∀ i, k ≤ i → i < j → outcome i = .uniqueViolation) → outcome j = .okRes →
        codeRetryAux outcome fuel k = .generated j := by
      intro fuel
      induction fuel with
      | zero => intro k j h1 h2 _ _; omega
      | succ n ih =>
        intro k j hkj hlt hcoll hok
        by_cases hkj' : k = j
        · subst hkj'
          simp only [codeRetryAux, hok]
        · have hk : outcome k = .uniqueViolation := hcoll k (Nat.le_refl k) (by omega)
          simp only [codeRetryAux, hk]
          exact ih (k + 1) j (by omega) (by omega)
            (fun i h1 h2 => hcoll i (by omega) h2) hok
    have haux3 : ∀ fuel k j, k ≤ j → j < k + fuel →
        (∀ i, k ≤ i → i < j → outcome i = .uniqueViolation) →
        outcome j = .otherFail →
        codeRetryAux outcome fuel k = .raised := by
      intro fuel
      induction fuel with
      | zero => intro k j h1 h2 _ _; omega
      | succ n ih =>
        intro k j hkj hlt hcoll hfailv
        by_cases hkj' : k = j
        · subst hkj'
          simp only [codeRetryAux, hfailv]
        · have hk : outcome k = .uniqueViolation := hcoll k (Nat.le_refl k) (by omega)
          simp only [codeRetryAux, hk]
          exact ih (k + 1) j (by omega) (by omega)
            (fun i h1 h2 => hcoll i (by omega) h2) hfailv
    refine ⟨?_, ?_, ?_⟩
    · intro h
      exact haux1 10 0 (fun i _ h2 => h i (by omega))
    · intro j hj hcoll hok
      exact haux2 10 0 j (by omega) (by omega) (fun i _ h2 => hcoll i h2) hok
    · intro j hj hcoll hfailv
      exact haux3 10 0 j (by omega) (by omega) (fun i _ h2 => hcoll i h2) hfailv

/-- C6 witness: with all draws equal to 0, the generated code is the valid
six-character `AAAAAA`; with the first insertion succeeding, the loop stops
at attempt 0; with ten straight collisions, issuance is exhausted. -/
theorem generateAccessCode_spec_check :
    ((generateAccessCode (fun _ => 0)).length = 6
      ∧ ∀ c ∈ (generateAccessCode (fun _ => 0)).data, c ∈ accessCodeChars.data)
    ∧ codeRetry (fun _ => .okRes) = .generated 0
    ∧ codeRetry (fun _ => .uniqueViolation) = .exhausted :=
  ⟨generateAccessCode_spec.2.1 (fun _ => 0) (fun i => by show (0 : Nat) < 31; decide),
   (generateAccessCode_spec.2.2 (fun _ => .okRes)).2.1 0 (by decide)
     (fun k hk => absurd hk (Nat.not_lt_zero k)) rfl,
   (generateAccessCode_spec.2.2 (fun _ => .uniqueViolation)).1 (fun k _ => rfl)⟩

theorem rotateTable_active (tbl : List VimeoRow) (nr : VimeoRow)
    (h : nr.active = true) :
    (rotateTable tbl nr).filter (fun v => v.active) = [nr] := by
  simp only [rotateTable, List.filter_append]
  have hmap : (tbl.map (fun v => if v.active then { v with active := false } else v)).filter
      (fun v => v.active) = [] := by
    rw [List.filter_eq_nil_iff]
    intro v hv
    obtain ⟨w, hw, rfl⟩ := List.mem_map.mp hv
    by_cases hwa : w.active = true
    · simp [hwa]
    · simp [hwa]
  rw [hmap]
  simp [h]

/-- C7: after any completed rotation, manual or scheduled, and for either
outcome of the external Vimeo push, exactly one `vimeo_passwords` row is
`active = true`, namely the newly inserted one; in particular rotating twice
in succession leaves only the second inserted row active. -/
theorem rotation_exactly_one_active (tbl : List VimeoRow)
    (reqPassword : Option String) (bytes : Nat → Nat) (videoId : String)
    (videoUrl : Option String) (rotationType : Option String) (now : Nat)
    (pushOk : Bool) :
    ((vimeoPasswordRotate tbl reqPassword bytes videoId videoUrl rotationType
        now pushOk).1.filter (fun v => v.active)
      = [{ video_id := videoId,
           password := reqPassword.getD (generatePassword 8 bytes),
           video_url := videoUrl, active := true,
           rotation_type := rotationType.getD "manual", created_at := now }])
    ∧ ((scheduledRotate tbl bytes videoId videoUrl now pushOk).1.filter
        (fun v => v.active)
      = [{ video_id := videoId, password := generatePassword 8 bytes,
           video_url := videoUrl, active := true, rotation_type := "scheduled",
           created_at := now }])
    ∧ (vimeoPasswordRotate tbl reqPassword bytes videoId videoUrl rotationType
        now pushOk).1
      = (vimeoPasswordRotate tbl reqPassword bytes videoId videoUrl rotationType
          now true).1
    ∧ (scheduledRotate tbl bytes videoId videoUrl now pushOk).1
      = (scheduledRotate tbl bytes videoId videoUrl now true).1 :=
  ⟨rotateTable_active _ _ rfl, rotateTable_active _ _ rfl, rfl, rfl⟩

/-- C8 counterexample: the alphabet actually used by `generatePassword` has 55
symbols, not the 58 the claim states. -/
theorem passwordChars_55_cx :
    passwordChars.length = 55 ∧ passwordChars.length ≠ 58 := by
  refine ⟨by decide, by decide⟩

/-- C8 (amended to the 55-symbol alphabet): with no password supplied the
rotation generates exactly 8 characters, each drawn from its own random byte
reduced modulo the size of the 55-symbol duplicate-free alphanumeric
alphabet. -/
theorem generatePassword_spec :
    passwordChars.data.length = 55
    ∧ passwordChars.data.Nodup
    ∧ ∀ bytes : Nat → Nat,
        (generatePassword 8 bytes).length = 8
        ∧ ∀ c ∈ (generatePassword 8 bytes).data, c ∈ passwordChars.data := by
  refine ⟨by decide, by decide, ?_⟩
  intro bytes
  refine ⟨rfl, ?_⟩
  intro c hc
  simp only [generatePassword, List.mem_map, List.mem_range] at hc
  obtain ⟨i, _, rfl⟩ := hc
  have hlt : bytes i % passwordChars.data.length < passwordChars.data.length :=
    Nat.mod_lt _ (by decide)
  rw [List.getD_eq_getElem _ _ hlt]
  exact List.getElem_mem hlt

/-- C9 counterexample: a request with an empty name and a phone that matches
no member is rejected 400 by the field validation, not with the 403
`notMember` response the claim prescribes for every request whose phone
matches no member. -/
theorem submitAbsence_validation_cx :
    (submitAbsence [] [] "" "5551234567" "sick" none none "2024-01-01" false).1
      = 400
    ∧ (submitAbsence [] [] "" "5551234567" "sick" none none "2024-01-01" false).1
      ≠ 403 := by
  refine ⟨rfl, by decide⟩

/-- C9 (amended to requests passing the field validation): whenever the
required fields are present and the reason is valid, a phone whose last 10
digits match no member's phone yields 403 with `notMember: true` and no
`absentee_checkins` insert; and, for any request at all, the check-in table
changes only when some member matches the phone. -/
theorem submitAbsence_member_gate :
    (∀ (members : List Member) (checkins : List AbsCheckin)
       (name phone reason : String) (prayerRequest serviceDate : Option String)
       (today : String) (smsOk : Bool),
      (trimStr name == "") = false → (trimStr phone == "") = false →
      (reason == "") = false → reason ∈ validReasons →
      (∀ m ∈ members, phoneMatches m (lastTen (digitsOf phone)) = false) →
      submitAbsence members checkins name phone reason prayerRequest
          serviceDate today smsOk
        = (403, true, checkins))
    ∧ (∀ (members : List Member) (checkins : List AbsCheckin)
       (name phone reason : String) (prayerRequest serviceDate : Option String)
       (today : String) (smsOk : Bool),
      (submitAbsence members checkins name phone reason prayerRequest
          serviceDate today smsOk).2.2 ≠ checkins →
      ∃ m ∈ members, phoneMatches m (lastTen (digitsOf phone)) = true) := by
  constructor
  · intro members checkins name phone reason prayerRequest serviceDate today
      smsOk hn hp hr0 hr hnm
    have hfind : members.find?
        (fun m => phoneMatches m (lastTen (digitsOf phone))) = none := by
      rw [List.find?_eq_none]
      intro m hm
      simp [hnm m hm]
    simp [submitAbsence, hn, hp, hr0, hr, hfind]
  · intro members checkins name phone reason prayerRequest serviceDate today
      smsOk hne
    by_cases h1 : (trimStr name == "") = true
    · exact absurd (by simp [submitAbsence, h1]) hne
    · by_cases h2 : (trimStr phone == "") = true
      · exact absurd (by simp [submitAbsence, h1, h2]) hne
      · by_cases h3 : (reason == "") = true
        · exact absurd (by simp [submitAbsence, h1, h2, h3]) hne
        · by_cases h4 : reason ∈ validReasons
          · cases hfind : members.find?
                (fun m => phoneMatches m (lastTen (digitsOf phone))) with
            | none =>
              exact absurd (by simp [submitAbsence, h1, h2, h3, h4, hfind]) hne
            | some m =>
              have hm' := List.find?_some hfind
              exact ⟨m, List.mem_of_find?_eq_some hfind, hm'⟩
          · exact absurd (by simp [submitAbsence, h1, h2, h3, h4]) hne

/-- C9 witness: a valid request from a phone absent from the directory is
turned away 403 `notMember` with the check-in table untouched. -/
theorem submitAbsence_member_gate_check :
    submitAbsence
        [{ id := "m1", first_name := "Jane", last_name := "Doe",
           phone := some "+1 (555) 123-4567" }]
        [] "Pat Smith" "999-999-9999" "sick" none none "2024-01-05" false
      = (403, true, []) :=
  submitAbsence_member_gate.1 _ _ _ _ _ _ _ _ _
    (by decide) (by decide) (by decide) (by decide) (by decide)
